import Mathlib

/-!
Verification of the sorrentum repository excerpt.

Shallow embedding of the components under study:
* `DaoCross`  — the linear program built by `optimize_for_volume`
  (defi/dao_cross/SorrTask80_dao_cross_optimization.py);
* `Sources`   — the data-source nodes `DiskDataSource`, `ArmaGenerator`,
  `MultivariateNormalGenerator` (core/dataflow/nodes/sources.py);
* `HCache`    — the two-tier computation cache exercised by
  helpers/notebooks/cache.py;
* `Telegram`  — the collaborator-management script
  (dev_scripts/process_telegram_collaborator.py).

Machine reals of the source are modelled as rationals; external library
calls (the ARMA / multivariate-normal sample draw, `np.exp`,
`pd.read_csv`, `pd.to_datetime`, annualized-volatility computation) are
taken as function parameters, since those collaborators are outside the
repository excerpt.
-/

namespace DaoCross

/-- The `Order` class: action, quantity, base token, limit price, quote
token, set at construction and never mutated. -/
structure Order where
  action : String
  quantity : ℚ
  base_token : String
  limit_price : ℚ
  quote_token : String
deriving DecidableEq, Repr

/-- The Big-M constant `M = 1e6` of `optimize_for_volume`. -/
def M : ℚ := 1000000

/-- `limit_price_cond_1 = int(exchange_rate <= order_1.limit_price)`. -/
def limit_price_cond_1 (order_1 : Order) (exchange_rate : ℚ) : ℚ :=
  if exchange_rate ≤ order_1.limit_price then 1 else 0

/-- `limit_price_cond_2 = int(exchange_rate >= order_2.limit_price)`. -/
def limit_price_cond_2 (order_2 : Order) (exchange_rate : ℚ) : ℚ :=
  if order_2.limit_price ≤ exchange_rate then 1 else 0

/-- The feasible region of the linear program assembled by
`optimize_for_volume`: the two decision variables `q_base_asterisk_1`,
`q_base_asterisk_2` have lower bound 0, and the seven explicit
constraints added by `prob +=` are imposed verbatim. -/
def feasible (order_1 order_2 : Order) (exchange_rate q1 q2 : ℚ) : Prop :=
  0 ≤ q1 ∧ 0 ≤ q2 ∧
  q1 ≤ order_1.quantity + M * (1 - limit_price_cond_1 order_1 exchange_rate) ∧
  q2 ≤ order_2.quantity + M * (1 - limit_price_cond_2 order_2 exchange_rate) ∧
  q1 ≤ M * limit_price_cond_1 order_1 exchange_rate ∧
  -(M * limit_price_cond_1 order_1 exchange_rate) ≤ q1 ∧
  q2 ≤ M * limit_price_cond_2 order_2 exchange_rate ∧
  -(M * limit_price_cond_2 order_2 exchange_rate) ≤ q2 ∧
  q1 = q2

/-- The objective `q_base_asterisk_1 + q_base_asterisk_2` (maximized). -/
def objective (q1 q2 : ℚ) : ℚ := q1 + q2

/-- The buy-side cap: `order_1.quantity` when the buy limit-price
condition holds, else `0`. -/
def cap1 (order_1 : Order) (exchange_rate : ℚ) : ℚ :=
  if exchange_rate ≤ order_1.limit_price then order_1.quantity else 0

/-- The sell-side cap: `order_2.quantity` when the sell limit-price
condition holds, else `0`. -/
def cap2 (order_2 : Order) (exchange_rate : ℚ) : ℚ :=
  if order_2.limit_price ≤ exchange_rate then order_2.quantity else 0

/-- The matched quantity: the smaller of the two caps. -/
def matchedQuantity (order_1 order_2 : Order) (exchange_rate : ℚ) : ℚ :=
  min (cap1 order_1 exchange_rate) (cap2 order_2 exchange_rate)

/-- `get_test_orders`: a quantity-5 BTC/ETH buy order at `limit_price_1`
and a quantity-5 BTC/ETH sell order at `limit_price_2`. -/
def get_test_orders (limit_price_1 limit_price_2 : ℚ) : Order × Order :=
  (⟨"buy", 5, "BTC", limit_price_1, "ETH"⟩,
   ⟨"sell", 5, "BTC", limit_price_2, "ETH"⟩)

end DaoCross

namespace Sources

/-- A dataframe as handled by `DiskDataSource`: an index plus named
columns in column-major form; cell values are modelled as integers
(timestamps after parsing are integers as well). -/
structure DiskDF where
  index : List ℤ
  cols : List (String × List ℤ)
deriving DecidableEq, Repr

/-- The characters after the last dot of a character list, when any. -/
def extAfterLastDot : List Char → Option (List Char)
  | [] => none
  | c :: rest =>
      match extAfterLastDot rest with
      | some e => some e
      | none => if c = '.' then some rest else none

/-- `os.path.splitext(file_path)[-1]`: the extension of the path, taken
from the last dot; empty when the path has no dot. -/
def splitext_last (file_path : String) : String :=
  match extAfterLastDot file_path.toList with
  | none => ""
  | some e => "." ++ String.mk e

/-- Keep only the entries of `col` whose position in `idx` carries an
index value satisfying `keep` (positional row filtering). -/
def filterByIndex {α : Type} (idx : List ℤ) (col : List α) (keep : ℤ → Bool) :
    List α :=
  ((idx.zip col).filter (fun p => keep p.1)).map (fun p => p.2)

/-- Membership of an index value in the inclusive `[start_date, end_date]`
window of `df.loc[start:end]`; an absent bound is no bound. -/
def inWindow (start_date end_date : Option ℤ) (t : ℤ) : Bool :=
  (match start_date with | none => true | some s => decide (s ≤ t)) &&
  (match end_date with | none => true | some e => decide (t ≤ e))

/-- `dbg.dassert_strictly_increasing_index`: the checked condition, a
strictly increasing index. -/
def strictly_increasing : List ℤ → Bool
  | [] => true
  | [_] => true
  | a :: b :: rest => decide (a < b) && strictly_increasing (b :: rest)

/-- `df.set_index(timestamp_col)`: the named column becomes the index
(replacing the previous index) and is removed from the columns; a
missing column is a `KeyError`. -/
def DiskDF.set_index (df : DiskDF) (c : String) : Except String DiskDF :=
  match df.cols.lookup c with
  | none => .error ("KeyError: " ++ c)
  | some vals => .ok ⟨vals, df.cols.filter (fun p => p.1 ≠ c)⟩

/-- `df.loc[start_date:end_date]`: slice every column (and the index) to
the inclusive window. -/
def DiskDF.slice (df : DiskDF) (start_date end_date : Option ℤ) : DiskDF :=
  ⟨df.index.filter (inWindow start_date end_date),
   df.cols.map
     (fun p => (p.1, filterByIndex df.index p.2 (inWindow start_date end_date)))⟩

/-- The `DiskDataSource` node state. `kwargs_aliased` models Python
object identity: whether the `_reader_kwargs` attribute is the very dict
object the caller passed to the constructor. -/
structure DiskDataSource where
  nid : String
  file_path : String
  timestamp_col : Option String
  start_date : Option ℤ
  end_date : Option ℤ
  reader_kwargs : List (String × ℤ)
  kwargs_aliased : Bool
  df : Option DiskDF
deriving DecidableEq, Repr

/-- `DiskDataSource.__init__`. `self._reader_kwargs = reader_kwargs or {}`:
a non-empty caller dict is stored as-is and the attribute aliases the
caller's object; `None` or an empty dict (both falsy) yield a fresh
empty dict, not aliased. The dataset starts unset. -/
def DiskDataSource.init (nid file_path : String) (timestamp_col : Option String)
    (start_date end_date : Option ℤ)
    (reader_kwargs : Option (List (String × ℤ))) : DiskDataSource :=
  match reader_kwargs with
  | none => ⟨nid, file_path, timestamp_col, start_date, end_date, [], false, none⟩
  | some k =>
      if k = [] then
        ⟨nid, file_path, timestamp_col, start_date, end_date, [], false, none⟩
      else ⟨nid, file_path, timestamp_col, start_date, end_date, k, true, none⟩

/-- The caller's dict after the node has run: when the node's attribute
aliases the caller's object, the caller sees the node's mutations;
otherwise the caller's dict is untouched. -/
def DiskDataSource.callerKwargs (self : DiskDataSource)
    (caller : List (String × ℤ)) : List (String × ℤ) :=
  if self.kwargs_aliased then self.reader_kwargs else caller

/-- `DiskDataSource._read_data`: dispatch on the file extension; for
`.csv`, insert `index_col = 0` into the reader options unless already
present (a mutation of the options dict), then read; for `.pq` read
directly; any other extension is a `ValueError`. The external readers
`pd.read_csv` / `pd.read_parquet` are parameters. -/
def DiskDataSource.read_data
    (read_csv read_parquet : String → List (String × ℤ) → DiskDF)
    (self : DiskDataSource) : Except String DiskDataSource :=
  let ext := splitext_last self.file_path
  if ext = ".csv" then
    let kwargs :=
      if (self.reader_kwargs.lookup "index_col").isNone then
        self.reader_kwargs ++ [("index_col", 0)]
      else self.reader_kwargs
    .ok { self with reader_kwargs := kwargs,
                    df := some (read_csv self.file_path kwargs) }
  else if ext = ".pq" then
    .ok { self with df := some (read_parquet self.file_path self.reader_kwargs) }
  else .error ("Invalid file extension='" ++ ext ++ "'")

/-- `DiskDataSource._process_data`: set the timestamp column as index if
given, parse the index into timestamps (`pd.to_datetime`, a parameter),
assert a strictly increasing index, slice to the inclusive
`[start_date, end_date]` window, assert the result non-empty. -/
def DiskDataSource.process_data (to_datetime : ℤ → ℤ)
    (self : DiskDataSource) : Except String DiskDataSource :=
  match self.df with
  | none => .error "AttributeError: df"
  | some df0 =>
    match (match self.timestamp_col with
           | none => Except.ok df0
           | some c => df0.set_index c) with
    | .error e => .error e
    | .ok df1 =>
      let df2 : DiskDF := ⟨df1.index.map to_datetime, df1.cols⟩
      if strictly_increasing df2.index then
        let df3 := df2.slice self.start_date self.end_date
        if df3.index = [] then .error "Dataframe is empty"
        else .ok { self with df := some df3 }
      else .error "dassert_strictly_increasing_index failed"

/-- `DiskDataSource._lazy_load`: return immediately when the dataset is
already set, otherwise read then process. -/
def DiskDataSource.lazy_load
    (read_csv read_parquet : String → List (String × ℤ) → DiskDF)
    (to_datetime : ℤ → ℤ) (self : DiskDataSource) :
    Except String DiskDataSource :=
  if self.df.isSome then .ok self
  else
    match self.read_data read_csv read_parquet with
    | .error e => .error e
    | .ok s1 => s1.process_data to_datetime

/-- `DiskDataSource.fit`: lazily load, then delegate to the base class.
The base class `DataSource` is outside the excerpt; its `fit` is
modelled from the spec as packaging the stored dataset as the output. -/
def DiskDataSource.fit
    (read_csv read_parquet : String → List (String × ℤ) → DiskDF)
    (to_datetime : ℤ → ℤ) (self : DiskDataSource) :
    Except String (DiskDataSource × Option DiskDF) :=
  match self.lazy_load read_csv read_parquet to_datetime with
  | .error e => .error e
  | .ok s => .ok (s, s.df)

/-- `DiskDataSource` has no `predict` of its own: the base class returns
the already-stored dataset (modelled from the spec). -/
def DiskDataSource.predict (self : DiskDataSource) :
    DiskDataSource × Option DiskDF :=
  (self, self.df)

/-- A dataframe produced by `ArmaGenerator`: an index plus named
rational-valued columns. -/
structure ArmaDF where
  index : List ℤ
  cols : List (String × List ℚ)
deriving DecidableEq, Repr

/-- Python `x or d` for an optional list argument: `None` and the empty
list are falsy and replaced by the default `d`. -/
def pyOrList (x : Option (List ℚ)) (d : List ℚ) : List ℚ :=
  match x with
  | none => d
  | some l => if l = [] then d else l

/-- Python `x or d` for an optional numeric argument: `None` and `0` are
falsy and replaced by the default `d`. -/
def pyOrNum (x : Option ℚ) (d : ℚ) : ℚ :=
  match x with
  | none => d
  | some v => if v = 0 then d else v

/-- Running cumulative sums of the values of a timestamped series,
starting from `acc`. -/
def cumsumFrom (acc : ℚ) : List (ℤ × ℚ) → List (ℤ × ℚ)
  | [] => []
  | (t, v) :: rest => (t, acc + v) :: cumsumFrom (acc + v) rest

/-- `series.cumsum()` on a timestamped series. -/
def cumsum (rets : List (ℤ × ℚ)) : List (ℤ × ℚ) := cumsumFrom 0 rets

/-- Slice a timestamped series to the inclusive window. -/
def slicePairs {α : Type} (start_date end_date : Option ℤ)
    (xs : List (ℤ × α)) : List (ℤ × α) :=
  xs.filter (fun p => inWindow start_date end_date p.1)

/-- The `ArmaGenerator` node state. -/
structure ArmaGenerator where
  nid : String
  frequency : String
  start_date : ℤ
  end_date : ℤ
  ar_coeffs : List ℚ
  ma_coeffs : List ℚ
  scale : ℚ
  burnin : ℚ
  seed : Option ℚ
  df : Option ArmaDF
deriving DecidableEq, Repr

/-- `ArmaGenerator.__init__`: `ar_coeffs or [0]`, `ma_coeffs or [0]`,
`scale or 1`, `burnin or 0`; the seed is stored exactly as given; the
dataset starts unset. -/
def ArmaGenerator.init (nid frequency : String) (start_date end_date : ℤ)
    (ar_coeffs ma_coeffs : Option (List ℚ)) (scale burnin seed : Option ℚ) :
    ArmaGenerator :=
  ⟨nid, frequency, start_date, end_date,
   pyOrList ar_coeffs [0], pyOrList ma_coeffs [0],
   pyOrNum scale 1, pyOrNum burnin 0, seed, none⟩

/-- `ArmaGenerator._lazy_load`: when the dataset is unset, draw a return
series from the ARMA process (external, parameter `generate_sample`,
applied to the stored date range, frequency, scale, burn-in and seed),
set `prices = np.exp(0.1 * rets.cumsum())` (with `np.exp` the parameter
`ex`), name the column `close`, slice to the inclusive window, then
append a constant `vol` column of value `100`. -/
def ArmaGenerator.lazy_load
    (generate_sample : ℤ → ℤ → String → ℚ → ℚ → Option ℚ → List (ℤ × ℚ))
    (ex : ℚ → ℚ) (self : ArmaGenerator) : ArmaGenerator :=
  if self.df.isSome then self
  else
    let rets := generate_sample self.start_date self.end_date self.frequency
      self.scale self.burnin self.seed
    let prices := (cumsum rets).map (fun p => (p.1, ex ((1/10) * p.2)))
    let sliced := slicePairs (some self.start_date) (some self.end_date) prices
    let close := sliced.map (fun p => p.2)
    let index := sliced.map (fun p => p.1)
    { self with
      df := some ⟨index, [("close", close),
                          ("vol", List.replicate index.length 100)]⟩ }

/-- `ArmaGenerator.fit`: lazily load, then delegate to the base class
(modelled from the spec as packaging the stored dataset). -/
def ArmaGenerator.fit
    (generate_sample : ℤ → ℤ → String → ℚ → ℚ → Option ℚ → List (ℤ × ℚ))
    (ex : ℚ → ℚ) (self : ArmaGenerator) : ArmaGenerator × Option ArmaDF :=
  let s := self.lazy_load generate_sample ex
  (s, s.df)

/-- `ArmaGenerator.predict`: identical lazy load then base behavior. -/
def ArmaGenerator.predict
    (generate_sample : ℤ → ℤ → String → ℚ → ℚ → Option ℚ → List (ℤ × ℚ))
    (ex : ℚ → ℚ) (self : ArmaGenerator) : ArmaGenerator × Option ArmaDF :=
  let s := self.lazy_load generate_sample ex
  (s, s.df)

/-- A dataframe produced by `MultivariateNormalGenerator`: an index, the
renamed column labels, and row-major `close` and `volume` blocks. -/
structure MvnDF where
  index : List ℤ
  names : List String
  close : List (List ℚ)
  volume : List (List ℚ)
deriving DecidableEq, Repr

/-- The `MultivariateNormalGenerator` node state. -/
structure MultivariateNormalGenerator where
  nid : String
  frequency : String
  start_date : ℤ
  end_date : ℤ
  dim : ℕ
  target_volatility : Option ℚ
  volatility_scale_factor : ℚ
  seed : Option ℚ
  df : Option MvnDF
deriving DecidableEq, Repr

/-- `MultivariateNormalGenerator.__init__`: stores the configuration,
initializes the volatility scale factor to `1` and leaves the dataset
unset (the inverse-Wishart covariance initialization happens inside the
external process object). -/
def MultivariateNormalGenerator.init (nid frequency : String)
    (start_date end_date : ℤ) (dim : ℕ)
    (target_volatility seed : Option ℚ) : MultivariateNormalGenerator :=
  ⟨nid, frequency, start_date, end_date, dim, target_volatility, 1, seed, none⟩

/-- `rets.mean(axis=1)`: the equal-weighted average of each row. -/
def meanAxis1 (rets : List (ℤ × List ℚ)) : List ℚ :=
  rets.map (fun p => p.2.sum / (p.2.length : ℚ))

/-- `rets * c`: scale every entry of every row. -/
def scaleRows (rets : List (ℤ × List ℚ)) (c : ℚ) : List (ℤ × List ℚ) :=
  rets.map (fun p => (p.1, p.2.map (fun x => x * c)))

/-- `MultivariateNormalGenerator._generate_returns`: the multivariate
sample draw (external) is the parameter `rets`;
`cfinan.compute_annualized_volatility` (external) is the parameter
`compute_annualized_volatility`. With no target volatility the raw
sample is returned; on a `fit`-phase generation the scale factor
`target / realized` is computed and stored; either way the sample is
multiplied by the factor now in effect. -/
def MultivariateNormalGenerator.generate_returns
    (compute_annualized_volatility : List ℚ → ℚ)
    (rets : List (ℤ × List ℚ))
    (self : MultivariateNormalGenerator) (fit : Bool) :
    MultivariateNormalGenerator × List (ℤ × List ℚ) :=
  match self.target_volatility with
  | none => (self, rets)
  | some target =>
    if fit then
      let avg_rets := meanAxis1 rets
      let vol := compute_annualized_volatility avg_rets
      let factor := target / vol
      ({ self with volatility_scale_factor := factor }, scaleRows rets factor)
    else (self, scaleRows rets self.volatility_scale_factor)

/-- Vector addition of two rows. -/
def addVec (a b : List ℚ) : List ℚ := List.zipWith (· + ·) a b

/-- Running cumulative row sums starting from `acc`. -/
def cumsumRowsFrom (acc : List ℚ) : List (ℤ × List ℚ) → List (ℤ × List ℚ)
  | [] => []
  | (t, v) :: rest =>
      let s := addVec acc v
      (t, s) :: cumsumRowsFrom s rest

/-- `rets.cumsum()` down the rows of a multivariate series. -/
def cumsumRows : List (ℤ × List ℚ) → List (ℤ × List ℚ)
  | [] => []
  | (t, v) :: rest => (t, v) :: cumsumRowsFrom v rest

/-- `MultivariateNormalGenerator._lazy_load`: when the dataset is unset,
generate (scaled) returns, set `prices = np.exp(rets.cumsum())`, rename
each dimension label to `MN<i>`, build a constant volume block of value
`100` with the shape of the price block, stack them under the labels
`close` / `volume`, store, and slice to the inclusive window. -/
def MultivariateNormalGenerator.lazy_load
    (compute_annualized_volatility : List ℚ → ℚ) (ex : ℚ → ℚ)
    (rets_sample : List (ℤ × List ℚ))
    (self : MultivariateNormalGenerator) (fit : Bool) :
    MultivariateNormalGenerator :=
  if self.df.isSome then self
  else
    let sr := self.generate_returns compute_annualized_volatility rets_sample fit
    let s := sr.1
    let prices := (cumsumRows sr.2).map (fun p => (p.1, p.2.map ex))
    let names := (List.range s.dim).map (fun i => "MN" ++ toString i)
    let index := prices.map (fun p => p.1)
    let closeRows := prices.map (fun p => p.2)
    let volumeRows := prices.map (fun p => p.2.map (fun _ => (100:ℚ)))
    let keep := inWindow (some s.start_date) (some s.end_date)
    { s with
      df := some ⟨index.filter keep, names,
                  filterByIndex index closeRows keep,
                  filterByIndex index volumeRows keep⟩ }

/-- `MultivariateNormalGenerator.fit`: lazy load with `fit=True`, then
base behavior (modelled from the spec as packaging the dataset). -/
def MultivariateNormalGenerator.fit
    (compute_annualized_volatility : List ℚ → ℚ) (ex : ℚ → ℚ)
    (rets_sample : List (ℤ × List ℚ))
    (self : MultivariateNormalGenerator) :
    MultivariateNormalGenerator × Option MvnDF :=
  let s := self.lazy_load compute_annualized_volatility ex rets_sample true
  (s, s.df)

/-- `MultivariateNormalGenerator.predict`: lazy load with `fit=False`,
then base behavior. -/
def MultivariateNormalGenerator.predict
    (compute_annualized_volatility : List ℚ → ℚ) (ex : ℚ → ℚ)
    (rets_sample : List (ℤ × List ℚ))
    (self : MultivariateNormalGenerator) :
    MultivariateNormalGenerator × Option MvnDF :=
  let s := self.lazy_load compute_annualized_volatility ex rets_sample false
  (s, s.df)

end Sources

namespace HCache

/-- The cache tier that served the most recent invocation, as reported
by `get_last_cache_accessed`. -/
inductive Tier
  | no_cache
  | mem
  | disk
deriving DecidableEq, Repr

/-- Modelled from the spec: the `helpers.cache.Cached` facade driven by
helpers/notebooks/cache.py is not part of the excerpt; this structure
follows §4.1 of the specification — a wrapped function, two
independently toggleable tier flags, the two tiers' stores keyed by the
call arguments, and the tier that served the most recent invocation. -/
structure Cached (α β : Type) where
  func : α → β
  use_mem_cache : Bool
  use_disk_cache : Bool
  mem_store : List (α × β)
  disk_store : List (α × β)
  last_accessed : Tier

/-- Exact-argument lookup in a tier's store. -/
def lookupArgs {α β : Type} [DecidableEq α] : List (α × β) → α → Option β
  | [], _ => none
  | (k, v) :: rest, x => if k = x then some v else lookupArgs rest x

/-- Modelled from the spec: one invocation of the cached function. Tier
resolution is memory first, then disk; a disk hit also repopulates the
memory tier; a miss in every enabled tier computes the wrapped function
and populates every enabled tier; the serving tier is recorded. -/
def Cached.call {α β : Type} [DecidableEq α] (c : Cached α β) (x : α) :
    Cached α β × β :=
  match (if c.use_mem_cache then lookupArgs c.mem_store x else none) with
  | some v => ({ c with last_accessed := .mem }, v)
  | none =>
    match (if c.use_disk_cache then lookupArgs c.disk_store x else none) with
    | some v =>
        ({ c with
            mem_store :=
              if c.use_mem_cache then (x, v) :: c.mem_store else c.mem_store,
            last_accessed := .disk }, v)
    | none =>
        let v := c.func x
        ({ c with
            mem_store :=
              if c.use_mem_cache then (x, v) :: c.mem_store else c.mem_store,
            disk_store :=
              if c.use_disk_cache then (x, v) :: c.disk_store else c.disk_store,
            last_accessed := .no_cache }, v)

/-- Modelled from the spec: `get_last_cache_accessed`. -/
def Cached.get_last_cache_accessed {α β : Type} (c : Cached α β) : Tier :=
  c.last_accessed

/-- Modelled from the spec: `clear_cache("mem")`, `clear_cache("disk")`,
or `clear_cache()` (both tiers, `cache_type = None`). -/
def Cached.clear_cache {α β : Type} (c : Cached α β)
    (cache_type : Option String) : Cached α β :=
  match cache_type with
  | some "mem" => { c with mem_store := [] }
  | some "disk" => { c with disk_store := [] }
  | _ => { c with mem_store := [], disk_store := [] }

end HCache

namespace Telegram

/-- A response to the `exportChatInviteLink` HTTP call: its status code
and the `result` field of its JSON body. -/
structure HttpResponse where
  status_code : ℕ
  result : Option String
deriving DecidableEq, Repr

/-- `_get_invate_link`, with Python local-variable semantics explicit:
the local `invite_link` is bound only inside the `status_code == 200`
branch, so the trailing `return invite_link` raises an implicit
`UnboundLocalError` when that branch was not taken. The outer
`Option` layer models whether the local is bound; the inner value is
`response.json().get("result")` (absent key gives `None`). -/
def get_invate_link (invite_link_response : HttpResponse) :
    Except String (Option String) :=
  let invite_link : Option (Option String) :=
    if invite_link_response.status_code = 200 then
      some invite_link_response.result
    else none
  match invite_link with
  | some v => .ok v
  | none =>
      .error "UnboundLocalError: local variable referenced before assignment"

/-- A call made against the bot object. -/
inductive BotCall
  | send_message (chat_id : String) (text : Option String)
  | banChatMember (group user : String)
  | unbanChatMember (group user : String)
deriving DecidableEq, Repr

/-- The declared choices of the `--action` flag in `_parse`. -/
def action_choices : List String := ["add", "remove", "unban"]

/-- `_invite_collaborator`: fetch an invite link, then send it as a
direct message to the user. -/
def invite_collaborator (invite_link_response : HttpResponse)
    (user_id group_id : String) : Except String (List BotCall) := do
  let link ← get_invate_link invite_link_response
  .ok [BotCall.send_message user_id link]

/-- `_remove_collaborator`: ban then unban the user in the group. -/
def remove_collaborator (user_id group_id : String) :
    Except String (List BotCall) :=
  .ok [BotCall.banChatMember group_id user_id,
       BotCall.unbanChatMember group_id user_id]

/-- `main`: dispatch on the parsed action; `add` invites, `remove` bans
then unbans, and any other action raises
`ValueError("Invalid action ='<action>'")` without making any bot
call. The `.ok` value lists the bot calls the run performs. -/
def main (invite_link_response : HttpResponse)
    (action username groupid : String) : Except String (List BotCall) :=
  if action = "add" then invite_collaborator invite_link_response username groupid
  else if action = "remove" then remove_collaborator username groupid
  else .error ("Invalid action ='" ++ action ++ "'")

end Telegram

namespace Sources

/-- Fixture: a reader standing in for `pd.read_csv` in witnesses. -/
def read_csv_fx : String → List (String × ℤ) → DiskDF :=
  fun _ _ => ⟨[1, 2], [("a", [5, 6])]⟩

/-- Fixture: a reader standing in for `pd.read_parquet` in witnesses. -/
def read_parquet_fx : String → List (String × ℤ) → DiskDF :=
  fun _ _ => ⟨[], []⟩

/-- Fixture: an identity `pd.to_datetime` (index values already
timestamps). -/
def to_datetime_fx : ℤ → ℤ := fun t => t

/-- Fixture: a disk node over a `.csv` path, no explicit options. -/
def disk_fx : DiskDataSource :=
  DiskDataSource.init "disk" "data.csv" none none none none

/-- Fixture: the disk node after its first successful `fit`. -/
def disk_fx_loaded : DiskDataSource :=
  { disk_fx with reader_kwargs := [("index_col", 0)],
                 df := some ⟨[1, 2], [("a", [5, 6])]⟩ }

/-- Fixture: an ARMA node with all optional arguments defaulted. -/
def arma_fx : ArmaGenerator :=
  ArmaGenerator.init "arma" "T" 0 10 none none none none none

/-- Fixture: a deterministic stand-in for the ARMA sample draw. -/
def gs_fx : ℤ → ℤ → String → ℚ → ℚ → Option ℚ → List (ℤ × ℚ) :=
  fun _ _ _ _ _ _ => [(1, 1), (2, 2)]

/-- Fixture: an identity stand-in for `np.exp`. -/
def ex_fx : ℚ → ℚ := fun x => x

/-- Fixture: a multivariate-normal node with target volatility 1. -/
def mvn_fx : MultivariateNormalGenerator :=
  MultivariateNormalGenerator.init "mvn" "T" 0 10 2 (some 1) none

/-- Fixture: a stand-in for `compute_annualized_volatility`. -/
def cav_fx : List ℚ → ℚ := fun _ => 2

/-- Fixture: a concrete multivariate sample. -/
def mvnrets_fx : List (ℤ × List ℚ) := [(1, [1, 2])]

/-- Fixture: a raw table with a timestamp column `ts`. -/
def df04_fx : DiskDF := ⟨[0, 1, 2], [("ts", [1, 2, 3]), ("a", [7, 8, 9])]⟩

/-- Fixture: a csv reader producing the `ts`-column table. -/
def read_csv4_fx : String → List (String × ℤ) → DiskDF := fun _ _ => df04_fx

/-- Fixture: a disk node using `ts` as timestamp column, window [1, 2]. -/
def disk4_fx : DiskDataSource :=
  DiskDataSource.init "disk4" "data.csv" (some "ts") (some 1) (some 2) none

/-- Fixture: the `ts` disk node right after its file read. -/
def disk4_fx_read : DiskDataSource :=
  { disk4_fx with reader_kwargs := [("index_col", 0)], df := some df04_fx }

end Sources

namespace Telegram

/-- C7 counterexample: at a concrete non-200 response the helper does
surface an error — the `return invite_link` statement fails with an
implicit `UnboundLocalError` — contradicting the claim that no error
surfaces and the undefined result is silently returned. -/
theorem get_invate_link_non_200_raises :
    get_invate_link ⟨404, none⟩ =
      Except.error
        "UnboundLocalError: local variable referenced before assignment" :=
  rfl

/-- C7 (amended): the helper contains no explicit raise, but whenever
the `exportChatInviteLink` call returns a status other than 200, the
invite-link local is never bound and the helper's own return statement
fails with an implicit unbound-local error, so an (accidental) error
does surface instead of an undefined result. -/
theorem get_invate_link_non_200_unbound (invite_link_response : HttpResponse)
    (h : invite_link_response.status_code ≠ 200) :
    get_invate_link invite_link_response =
      Except.error
        "UnboundLocalError: local variable referenced before assignment" := by
  unfold get_invate_link
  rw [if_neg h]

/-- Witness for the amended C7 at status 500. -/
theorem get_invate_link_non_200_unbound_witness :
    (HttpResponse.mk 500 none).status_code ≠ 200 ∧
    get_invate_link ⟨500, none⟩ =
      Except.error
        "UnboundLocalError: local variable referenced before assignment" :=
  ⟨by decide, get_invate_link_non_200_unbound ⟨500, none⟩ (by decide)⟩

/-- C8: any action other than `add` and `remove` — in particular the
declared flag choice `unban` — makes `main` raise the fatal
`ValueError("Invalid action ='<action>'")`, performing no bot call (the
failing branch constructs only the error). -/
theorem main_invalid_action (invite_link_response : HttpResponse)
    (action username groupid : String)
    (hadd : action ≠ "add") (hremove : action ≠ "remove") :
    main invite_link_response action username groupid =
      Except.error ("Invalid action ='" ++ action ++ "'") ∧
    "unban" ∈ action_choices := by
  unfold main
  rw [if_neg hadd, if_neg hremove]
  exact ⟨rfl, by unfold action_choices; simp⟩

/-- Witness for C8 at the declared but unhandled action `unban`. -/
theorem main_invalid_action_witness :
    (("unban" : String) ≠ "add" ∧ ("unban" : String) ≠ "remove") ∧
    (main ⟨200, some "link"⟩ "unban" "user" "group" =
       Except.error ("Invalid action ='" ++ "unban" ++ "'") ∧
     "unban" ∈ action_choices) :=
  ⟨⟨by decide, by decide⟩,
   main_invalid_action ⟨200, some "link"⟩ "unban" "user" "group"
     (by decide) (by decide)⟩

end Telegram

namespace DaoCross

lemma cap1_nonneg (order_1 : Order) (exchange_rate : ℚ)
    (h : 0 < order_1.quantity) : 0 ≤ cap1 order_1 exchange_rate := by
  unfold cap1; split <;> [exact h.le; exact le_refl 0]

lemma cap2_nonneg (order_2 : Order) (exchange_rate : ℚ)
    (h : 0 < order_2.quantity) : 0 ≤ cap2 order_2 exchange_rate := by
  unfold cap2; split <;> [exact h.le; exact le_refl 0]

lemma matched_feasible (order_1 order_2 : Order) (exchange_rate : ℚ)
    (hq1pos : 0 < order_1.quantity) (hq1M : order_1.quantity ≤ M)
    (hq2pos : 0 < order_2.quantity) (hq2M : order_2.quantity ≤ M) :
    feasible order_1 order_2 exchange_rate
      (matchedQuantity order_1 order_2 exchange_rate)
      (matchedQuantity order_1 order_2 exchange_rate) := by
  have hM : (0:ℚ) < M := by norm_num [M]
  by_cases hc1 : exchange_rate ≤ order_1.limit_price <;>
    by_cases hc2 : order_2.limit_price ≤ exchange_rate
  · simp only [feasible, matchedQuantity, cap1, cap2, limit_price_cond_1,
      limit_price_cond_2, if_pos hc1, if_pos hc2]
    have hl := min_le_left order_1.quantity order_2.quantity
    have hr := min_le_right order_1.quantity order_2.quantity
    have h0 : (0:ℚ) ≤ min order_1.quantity order_2.quantity :=
      le_min hq1pos.le hq2pos.le
    refine ⟨h0, h0, by linarith, by linarith, by linarith, by linarith,
      by linarith, by linarith, trivial⟩
  · simp only [feasible, matchedQuantity, cap1, cap2, limit_price_cond_1,
      limit_price_cond_2, if_pos hc1, if_neg hc2]
    rw [min_eq_right hq1pos.le]
    refine ⟨le_refl 0, le_refl 0, by linarith, by linarith, by linarith,
      by linarith, by linarith, by linarith, trivial⟩
  · simp only [feasible, matchedQuantity, cap1, cap2, limit_price_cond_1,
      limit_price_cond_2, if_neg hc1, if_pos hc2]
    rw [min_eq_left hq2pos.le]
    refine ⟨le_refl 0, le_refl 0, by linarith, by linarith, by linarith,
      by linarith, by linarith, by linarith, trivial⟩
  · simp only [feasible, matchedQuantity, cap1, cap2, limit_price_cond_1,
      limit_price_cond_2, if_neg hc1, if_neg hc2]
    rw [min_self]
    refine ⟨le_refl 0, le_refl 0, by linarith, by linarith, by linarith,
      by linarith, by linarith, by linarith, trivial⟩

lemma feasible_objective_le (order_1 order_2 : Order) (exchange_rate q1 q2 : ℚ)
    (hq1pos : 0 < order_1.quantity) (hq2pos : 0 < order_2.quantity)
    (hfeas : feasible order_1 order_2 exchange_rate q1 q2) :
    objective q1 q2 ≤ 2 * matchedQuantity order_1 order_2 exchange_rate := by
  obtain ⟨h01, h02, hcap1, hcap2, hM1, hM1n, hM2, hM2n, heq⟩ := hfeas
  unfold objective matchedQuantity
  by_cases hc1 : exchange_rate ≤ order_1.limit_price <;>
    by_cases hc2 : order_2.limit_price ≤ exchange_rate
  · simp only [limit_price_cond_1, limit_price_cond_2, if_pos hc1,
      if_pos hc2] at hcap1 hcap2
    simp only [cap1, cap2, if_pos hc1, if_pos hc2]
    rcases le_total order_1.quantity order_2.quantity with h | h
    · rw [min_eq_left h]; linarith
    · rw [min_eq_right h]; linarith
  · simp only [limit_price_cond_2, if_neg hc2] at hM2
    simp only [cap1, cap2, if_pos hc1, if_neg hc2]
    rw [min_eq_right hq1pos.le]
    linarith
  · simp only [limit_price_cond_1, if_neg hc1] at hM1
    simp only [cap1, cap2, if_neg hc1, if_pos hc2]
    rw [min_eq_left hq2pos.le]
    linarith
  · simp only [limit_price_cond_1, if_neg hc1] at hM1
    simp only [cap1, cap2, if_neg hc1, if_neg hc2]
    rw [min_self]
    linarith

/-- C1: for a buy order `order_1` and a sell order `order_2` with positive
quantities at most the Big-M constant and a strictly positive exchange
rate, the point `q1 = q2 = min(cap1, cap2)` is feasible for the linear
program built by `optimize_for_volume`, every feasible point has
objective at most `2 * min(cap1, cap2)` (so the point is optimal, with
optimal objective exactly `2 * min(cap1, cap2)`), and the matched
quantity is `0` whenever either limit-price condition fails. -/
theorem optimize_for_volume_optimal (order_1 order_2 : Order) (exchange_rate : ℚ)
    (hbuy : order_1.action = "buy") (hsell : order_2.action = "sell")
    (hrate : 0 < exchange_rate)
    (hq1pos : 0 < order_1.quantity) (hq1M : order_1.quantity ≤ M)
    (hq2pos : 0 < order_2.quantity) (hq2M : order_2.quantity ≤ M) :
    feasible order_1 order_2 exchange_rate
      (matchedQuantity order_1 order_2 exchange_rate)
      (matchedQuantity order_1 order_2 exchange_rate) ∧
    (∀ q1 q2 : ℚ, feasible order_1 order_2 exchange_rate q1 q2 →
      objective q1 q2 ≤ 2 * matchedQuantity order_1 order_2 exchange_rate) ∧
    objective (matchedQuantity order_1 order_2 exchange_rate)
      (matchedQuantity order_1 order_2 exchange_rate) =
      2 * matchedQuantity order_1 order_2 exchange_rate ∧
    ((¬ exchange_rate ≤ order_1.limit_price ∨
      ¬ order_2.limit_price ≤ exchange_rate) →
      matchedQuantity order_1 order_2 exchange_rate = 0) := by
  refine ⟨matched_feasible order_1 order_2 exchange_rate hq1pos hq1M hq2pos hq2M,
    fun q1 q2 h =>
      feasible_objective_le order_1 order_2 exchange_rate q1 q2 hq1pos hq2pos h,
    by unfold objective; ring, ?_⟩
  rintro (h | h)
  · unfold matchedQuantity
    have hcapz : cap1 order_1 exchange_rate = 0 := by unfold cap1; rw [if_neg h]
    rw [hcapz, min_eq_left (cap2_nonneg order_2 exchange_rate hq2pos)]
  · unfold matchedQuantity
    have hcapz : cap2 order_2 exchange_rate = 0 := by unfold cap2; rw [if_neg h]
    rw [hcapz, min_eq_right (cap1_nonneg order_1 exchange_rate hq1pos)]

/-- Witness for C1 at the notebook's first scenario: buy limit 5, sell
limit 3, exchange rate 4 (both conditions hold, matched quantity 5). -/
theorem optimize_for_volume_optimal_witness :
    ((get_test_orders 5 3).1.action = "buy" ∧
     (get_test_orders 5 3).2.action = "sell" ∧
     (0:ℚ) < 4 ∧
     0 < (get_test_orders 5 3).1.quantity ∧
     (get_test_orders 5 3).1.quantity ≤ M ∧
     0 < (get_test_orders 5 3).2.quantity ∧
     (get_test_orders 5 3).2.quantity ≤ M) ∧
    (feasible (get_test_orders 5 3).1 (get_test_orders 5 3).2 4
       (matchedQuantity (get_test_orders 5 3).1 (get_test_orders 5 3).2 4)
       (matchedQuantity (get_test_orders 5 3).1 (get_test_orders 5 3).2 4) ∧
     (∀ q1 q2 : ℚ,
        feasible (get_test_orders 5 3).1 (get_test_orders 5 3).2 4 q1 q2 →
        objective q1 q2 ≤
          2 * matchedQuantity (get_test_orders 5 3).1 (get_test_orders 5 3).2 4) ∧
     objective (matchedQuantity (get_test_orders 5 3).1 (get_test_orders 5 3).2 4)
       (matchedQuantity (get_test_orders 5 3).1 (get_test_orders 5 3).2 4) =
       2 * matchedQuantity (get_test_orders 5 3).1 (get_test_orders 5 3).2 4 ∧
     ((¬ (4:ℚ) ≤ (get_test_orders 5 3).1.limit_price ∨
       ¬ (get_test_orders 5 3).2.limit_price ≤ 4) →
       matchedQuantity (get_test_orders 5 3).1 (get_test_orders 5 3).2 4 = 0)) :=
  ⟨⟨rfl, rfl, by decide, by decide, by decide, by decide, by decide⟩,
   optimize_for_volume_optimal (get_test_orders 5 3).1 (get_test_orders 5 3).2 4
     rfl rfl (by decide) (by decide) (by decide) (by decide) (by decide)⟩

end DaoCross

namespace Sources

/-- C10: `ArmaGenerator.__init__` replaces every falsy optional argument
by its default: an explicit `scale` of `0` is stored as `1` (as is
`None`), empty `ar_coeffs`/`ma_coeffs` lists are stored as `[0]` (as is
`None`), a falsy `burnin` is stored as the default `0`, while a `seed`
of `0` is stored exactly as given. -/
theorem arma_init_falsy_defaults (nid frequency : String)
    (start_date end_date : ℤ) (ar ma : Option (List ℚ))
    (scale burnin seed : Option ℚ) :
    (ArmaGenerator.init nid frequency start_date end_date ar ma
       (some 0) burnin seed).scale = 1 ∧
    (ArmaGenerator.init nid frequency start_date end_date ar ma
       none burnin seed).scale = 1 ∧
    (ArmaGenerator.init nid frequency start_date end_date (some []) ma
       scale burnin seed).ar_coeffs = [0] ∧
    (ArmaGenerator.init nid frequency start_date end_date none ma
       scale burnin seed).ar_coeffs = [0] ∧
    (ArmaGenerator.init nid frequency start_date end_date ar (some [])
       scale burnin seed).ma_coeffs = [0] ∧
    (ArmaGenerator.init nid frequency start_date end_date ar none
       scale burnin seed).ma_coeffs = [0] ∧
    (ArmaGenerator.init nid frequency start_date end_date ar ma
       scale (some 0) seed).burnin = 0 ∧
    (ArmaGenerator.init nid frequency start_date end_date ar ma
       scale none seed).burnin = 0 ∧
    (ArmaGenerator.init nid frequency start_date end_date ar ma
       scale burnin (some 0)).seed = some 0 := by
  refine ⟨?_, rfl, ?_, rfl, ?_, rfl, ?_, rfl, rfl⟩ <;>
    simp [ArmaGenerator.init, pyOrNum, pyOrList]

/-- C5: `_generate_returns` with a target volatility set computes the
volatility scale factor `target / annualized_volatility(mean(rets))`
only on a fit-phase generation; a predict-phase generation leaves the
stored factor untouched and scales its sample by it — so a sample
generated after a fit-phase calibration is scaled by the factor
recorded then (calibrated once and frozen); without a target the raw
sample is returned and the state is unchanged. -/
theorem mvn_generate_returns_scale_factor
    (compute_annualized_volatility : List ℚ → ℚ)
    (rets rets2 : List (ℤ × List ℚ))
    (s s0 : MultivariateNormalGenerator) (target : ℚ)
    (htv : s.target_volatility = some target)
    (hno : s0.target_volatility = none) :
    (s.generate_returns compute_annualized_volatility rets true =
      ({ s with volatility_scale_factor :=
           target / compute_annualized_volatility (meanAxis1 rets) },
       scaleRows rets
         (target / compute_annualized_volatility (meanAxis1 rets)))) ∧
    (s.generate_returns compute_annualized_volatility rets false =
      (s, scaleRows rets s.volatility_scale_factor)) ∧
    ((s.generate_returns compute_annualized_volatility rets
        true).1.generate_returns compute_annualized_volatility rets2 false =
      ((s.generate_returns compute_annualized_volatility rets true).1,
       scaleRows rets2
         (target / compute_annualized_volatility (meanAxis1 rets)))) ∧
    (s0.generate_returns compute_annualized_volatility rets true =
      (s0, rets)) ∧
    (s0.generate_returns compute_annualized_volatility rets false =
      (s0, rets)) := by
  refine ⟨?_, ?_, ?_, ?_, ?_⟩ <;>
    simp [MultivariateNormalGenerator.generate_returns, htv, hno]

/-- Witness for C5: a dimension-2 node with target volatility 1 and a
node without target volatility, on concrete samples. -/
theorem mvn_generate_returns_scale_factor_witness :
    ((MultivariateNormalGenerator.init "mn" "T" 0 10 2 (some 1)
        none).target_volatility = some 1 ∧
     (MultivariateNormalGenerator.init "mn0" "T" 0 10 2 none
        none).target_volatility = none) ∧
    ((MultivariateNormalGenerator.init "mn" "T" 0 10 2 (some 1)
        none).generate_returns (fun _ => 2) [(0, [1, 2])] true =
      ({ MultivariateNormalGenerator.init "mn" "T" 0 10 2 (some 1) none with
           volatility_scale_factor :=
             1 / (fun _ : List ℚ => (2:ℚ)) (meanAxis1 [(0, [1, 2])]) },
       scaleRows [(0, [1, 2])]
         (1 / (fun _ : List ℚ => (2:ℚ)) (meanAxis1 [(0, [1, 2])]))) ∧
     ((MultivariateNormalGenerator.init "mn" "T" 0 10 2 (some 1)
         none).generate_returns (fun _ => 2) [(0, [1, 2])] false =
       (MultivariateNormalGenerator.init "mn" "T" 0 10 2 (some 1) none,
        scaleRows [(0, [1, 2])]
          (MultivariateNormalGenerator.init "mn" "T" 0 10 2 (some 1)
             none).volatility_scale_factor)) ∧
     (((MultivariateNormalGenerator.init "mn" "T" 0 10 2 (some 1)
          none).generate_returns (fun _ => 2) [(0, [1, 2])]
            true).1.generate_returns (fun _ => 2) [(1, [3, 4])] false =
       (((MultivariateNormalGenerator.init "mn" "T" 0 10 2 (some 1)
           none).generate_returns (fun _ => 2) [(0, [1, 2])] true).1,
        scaleRows [(1, [3, 4])]
          (1 / (fun _ : List ℚ => (2:ℚ)) (meanAxis1 [(0, [1, 2])])))) ∧
     ((MultivariateNormalGenerator.init "mn0" "T" 0 10 2 none
         none).generate_returns (fun _ => 2) [(0, [1, 2])] true =
       (MultivariateNormalGenerator.init "mn0" "T" 0 10 2 none none,
        [(0, [1, 2])])) ∧
     ((MultivariateNormalGenerator.init "mn0" "T" 0 10 2 none
         none).generate_returns (fun _ => 2) [(0, [1, 2])] false =
       (MultivariateNormalGenerator.init "mn0" "T" 0 10 2 none none,
        [(0, [1, 2])]))) :=
  ⟨⟨rfl, rfl⟩,
   mvn_generate_returns_scale_factor (fun _ => 2) [(0, [1, 2])] [(1, [3, 4])]
     (MultivariateNormalGenerator.init "mn" "T" 0 10 2 (some 1) none)
     (MultivariateNormalGenerator.init "mn0" "T" 0 10 2 none none) 1 rfl rfl⟩

end Sources

namespace Sources

lemma slicePairs_map_comm (ex : ℚ → ℚ) (l : List (ℤ × ℚ)) (w1 w2 : Option ℤ) :
    slicePairs w1 w2 (l.map (fun p => (p.1, ex ((1/10) * p.2)))) =
      (l.filter (fun p => inWindow w1 w2 p.1)).map
        (fun p => (p.1, ex ((1/10) * p.2))) := by
  unfold slicePairs
  rw [List.filter_map]
  rfl

/-- C6: the dataset produced by the ARMA generator's first load: the
price column is `exp(0.1 * cumsum(returns))` restricted to the inclusive
`[start_date, end_date]` window, it is named `close`, a `vol` column
constantly `100` with one entry per remaining row is appended, and every
index entry lies inside the window. -/
theorem arma_lazy_load_dataset
    (generate_sample : ℤ → ℤ → String → ℚ → ℚ → Option ℚ → List (ℤ × ℚ))
    (ex : ℚ → ℚ) (nid frequency : String) (start_date end_date : ℤ)
    (ar ma : Option (List ℚ)) (scale burnin seed : Option ℚ) :
    ((ArmaGenerator.init nid frequency start_date end_date ar ma scale burnin
        seed).fit generate_sample ex).2 =
      some ⟨(((cumsum (generate_sample start_date end_date frequency
                 (pyOrNum scale 1) (pyOrNum burnin 0) seed)).filter
               (fun p => inWindow (some start_date) (some end_date) p.1)).map
               (fun p => p.1)),
            [("close",
              ((cumsum (generate_sample start_date end_date frequency
                  (pyOrNum scale 1) (pyOrNum burnin 0) seed)).filter
                (fun p => inWindow (some start_date) (some end_date) p.1)).map
                (fun p => ex ((1/10) * p.2))),
             ("vol",
              List.replicate
                ((((cumsum (generate_sample start_date end_date frequency
                      (pyOrNum scale 1) (pyOrNum burnin 0) seed)).filter
                    (fun p => inWindow (some start_date) (some end_date)
                      p.1)).map (fun p => p.1)).length) 100)]⟩ ∧
    (∀ t ∈ (((cumsum (generate_sample start_date end_date frequency
               (pyOrNum scale 1) (pyOrNum burnin 0) seed)).filter
             (fun p => inWindow (some start_date) (some end_date) p.1)).map
             (fun p => p.1)),
       start_date ≤ t ∧ t ≤ end_date) := by
  constructor
  · show (let s := (ArmaGenerator.init nid frequency start_date end_date ar ma
        scale burnin seed).lazy_load generate_sample ex
      (s, s.df)).2 = _
    simp only [ArmaGenerator.lazy_load, ArmaGenerator.init, Option.isSome_none,
      Bool.false_eq_true, if_false, slicePairs_map_comm, List.map_map]
    rfl
  · intro t ht
    rw [List.mem_map] at ht
    obtain ⟨p, hp, hpt⟩ := ht
    rw [List.mem_filter] at hp
    have hw := hp.2
    unfold inWindow at hw
    rw [Bool.and_eq_true, decide_eq_true_eq, decide_eq_true_eq] at hw
    rw [← hpt]
    exact hw

end Sources

namespace Sources

lemma arma_lazy_load_isSome
    (generate_sample : ℤ → ℤ → String → ℚ → ℚ → Option ℚ → List (ℤ × ℚ))
    (ex : ℚ → ℚ) (s : ArmaGenerator) :
    ((s.lazy_load generate_sample ex).df).isSome := by
  unfold ArmaGenerator.lazy_load
  by_cases h : s.df.isSome
  · rw [if_pos h]; exact h
  · rw [if_neg h]; rfl

lemma arma_lazy_load_of_isSome
    (generate_sample : ℤ → ℤ → String → ℚ → ℚ → Option ℚ → List (ℤ × ℚ))
    (ex : ℚ → ℚ) (s : ArmaGenerator) (h : s.df.isSome) :
    s.lazy_load generate_sample ex = s := by
  unfold ArmaGenerator.lazy_load
  rw [if_pos h]

lemma mvn_lazy_load_isSome
    (compute_annualized_volatility : List ℚ → ℚ) (ex : ℚ → ℚ)
    (rets_sample : List (ℤ × List ℚ))
    (s : MultivariateNormalGenerator) (fit : Bool) :
    ((s.lazy_load compute_annualized_volatility ex rets_sample fit).df).isSome := by
  unfold MultivariateNormalGenerator.lazy_load
  by_cases h : s.df.isSome
  · rw [if_pos h]; exact h
  · rw [if_neg h]; rfl

lemma mvn_lazy_load_of_isSome
    (compute_annualized_volatility : List ℚ → ℚ) (ex : ℚ → ℚ)
    (rets_sample : List (ℤ × List ℚ))
    (s : MultivariateNormalGenerator) (fit : Bool) (h : s.df.isSome) :
    s.lazy_load compute_annualized_volatility ex rets_sample fit = s := by
  unfold MultivariateNormalGenerator.lazy_load
  rw [if_pos h]

lemma DiskDataSource.read_data_ok_isSome
    (read_csv read_parquet : String → List (String × ℤ) → DiskDF)
    (s s' : DiskDataSource)
    (h : s.read_data read_csv read_parquet = .ok s') : s'.df.isSome := by
  unfold DiskDataSource.read_data at h
  dsimp only at h
  by_cases hcsv : splitext_last s.file_path = ".csv"
  · rw [if_pos hcsv] at h
    cases h; rfl
  · rw [if_neg hcsv] at h
    by_cases hpq : splitext_last s.file_path = ".pq"
    · rw [if_pos hpq] at h
      cases h; rfl
    · rw [if_neg hpq] at h
      exact Except.noConfusion h

lemma DiskDataSource.process_data_ok_isSome (to_datetime : ℤ → ℤ)
    (s s' : DiskDataSource)
    (h : s.process_data to_datetime = .ok s') : s'.df.isSome := by
  unfold DiskDataSource.process_data at h
  split at h
  · exact Except.noConfusion h
  · split at h
    · exact Except.noConfusion h
    · dsimp only at h
      split at h
      · split at h
        · exact Except.noConfusion h
        · cases h; rfl
      · exact Except.noConfusion h

lemma DiskDataSource.lazy_load_ok_isSome
    (read_csv read_parquet : String → List (String × ℤ) → DiskDF)
    (to_datetime : ℤ → ℤ) (s s' : DiskDataSource)
    (h : s.lazy_load read_csv read_parquet to_datetime = .ok s') :
    s'.df.isSome := by
  unfold DiskDataSource.lazy_load at h
  split at h
  · cases h; assumption
  · split at h
    · exact Except.noConfusion h
    · exact DiskDataSource.process_data_ok_isSome to_datetime _ _ h

lemma DiskDataSource.lazy_load_of_isSome
    (read_csv read_parquet : String → List (String × ℤ) → DiskDF)
    (to_datetime : ℤ → ℤ) (s : DiskDataSource) (h : s.df.isSome) :
    s.lazy_load read_csv read_parquet to_datetime = .ok s := by
  unfold DiskDataSource.lazy_load
  rw [if_pos h]

lemma DiskDataSource.fit_ok_parts
    (read_csv read_parquet : String → List (String × ℤ) → DiskDF)
    (to_datetime : ℤ → ℤ) (s s' : DiskDataSource) (d : Option DiskDF)
    (h : s.fit read_csv read_parquet to_datetime = .ok (s', d)) :
    s.lazy_load read_csv read_parquet to_datetime = .ok s' ∧ d = s'.df := by
  unfold DiskDataSource.fit at h
  split at h
  · exact Except.noConfusion h
  · rename_i s1 heq
    injection h with h'
    injection h' with ha hb
    subst ha
    exact ⟨heq, hb.symm⟩

end Sources

namespace Sources

/-- C2: every source node produces its dataset at most once. For the
disk node, a first successful `fit` stores the dataset; a second `fit`
(even with different readers — nothing is re-read) returns the same
state and dataset, and `predict` returns the stored dataset. For the
two generator nodes, the first `fit` or `predict` stores the dataset and
every later `fit`/`predict` (even with different external draw
functions — nothing is regenerated) returns the same state and
dataset. -/
theorem sources_dataset_produced_at_most_once
    (read_csv read_parquet read_csv2 read_parquet2 :
      String → List (String × ℤ) → DiskDF)
    (to_datetime to_datetime2 : ℤ → ℤ) (ds ds1 : DiskDataSource)
    (d : Option DiskDF)
    (hdisk : ds.fit read_csv read_parquet to_datetime = .ok (ds1, d))
    (generate_sample generate_sample2 :
      ℤ → ℤ → String → ℚ → ℚ → Option ℚ → List (ℤ × ℚ))
    (ex ex2 : ℚ → ℚ) (ag : ArmaGenerator)
    (compute_annualized_volatility compute_annualized_volatility2 :
      List ℚ → ℚ)
    (exm exm2 : ℚ → ℚ) (rets rets2 : List (ℤ × List ℚ))
    (mg : MultivariateNormalGenerator) :
    (d = ds1.df ∧ ds1.df.isSome ∧
     ds1.fit read_csv2 read_parquet2 to_datetime2 = .ok (ds1, d) ∧
     ds1.predict = (ds1, d)) ∧
    ((ag.fit generate_sample ex).2 = (ag.fit generate_sample ex).1.df ∧
     (ag.fit generate_sample ex).2.isSome ∧
     (ag.fit generate_sample ex).1.fit generate_sample2 ex2 =
       ((ag.fit generate_sample ex).1, (ag.fit generate_sample ex).2) ∧
     (ag.fit generate_sample ex).1.predict generate_sample2 ex2 =
       ((ag.fit generate_sample ex).1, (ag.fit generate_sample ex).2) ∧
     (ag.predict generate_sample ex).1.fit generate_sample2 ex2 =
       ((ag.predict generate_sample ex).1,
        (ag.predict generate_sample ex).2)) ∧
    ((mg.fit compute_annualized_volatility exm rets).2 =
       (mg.fit compute_annualized_volatility exm rets).1.df ∧
     (mg.fit compute_annualized_volatility exm rets).2.isSome ∧
     (mg.fit compute_annualized_volatility exm rets).1.fit
         compute_annualized_volatility2 exm2 rets2 =
       ((mg.fit compute_annualized_volatility exm rets).1,
        (mg.fit compute_annualized_volatility exm rets).2) ∧
     (mg.fit compute_annualized_volatility exm rets).1.predict
         compute_annualized_volatility2 exm2 rets2 =
       ((mg.fit compute_annualized_volatility exm rets).1,
        (mg.fit compute_annualized_volatility exm rets).2) ∧
     (mg.predict compute_annualized_volatility exm rets).1.fit
         compute_annualized_volatility2 exm2 rets2 =
       ((mg.predict compute_annualized_volatility exm rets).1,
        (mg.predict compute_annualized_volatility exm rets).2)) := by
  refine ⟨?_, ?_, ?_⟩
  · obtain ⟨hll, hd⟩ :=
      DiskDataSource.fit_ok_parts read_csv read_parquet to_datetime ds ds1 d hdisk
    have hs := DiskDataSource.lazy_load_ok_isSome read_csv read_parquet
      to_datetime ds ds1 hll
    subst hd
    refine ⟨rfl, hs, ?_, rfl⟩
    unfold DiskDataSource.fit
    rw [DiskDataSource.lazy_load_of_isSome read_csv2 read_parquet2
      to_datetime2 ds1 hs]
  · have hs := arma_lazy_load_isSome generate_sample ex ag
    refine ⟨rfl, hs, ?_, ?_, ?_⟩
    · show (ag.lazy_load generate_sample ex).fit generate_sample2 ex2 = _
      unfold ArmaGenerator.fit
      rw [arma_lazy_load_of_isSome generate_sample2 ex2 _ hs]
    · show (ag.lazy_load generate_sample ex).predict generate_sample2 ex2 = _
      unfold ArmaGenerator.predict
      rw [arma_lazy_load_of_isSome generate_sample2 ex2 _ hs]
      rfl
    · show (ag.lazy_load generate_sample ex).fit generate_sample2 ex2 = _
      unfold ArmaGenerator.fit
      rw [arma_lazy_load_of_isSome generate_sample2 ex2 _ hs]
      rfl
  · have hs := mvn_lazy_load_isSome
      compute_annualized_volatility exm rets mg true
    have hs' := mvn_lazy_load_isSome
      compute_annualized_volatility exm rets mg false
    refine ⟨rfl, hs, ?_, ?_, ?_⟩
    · show (mg.lazy_load compute_annualized_volatility exm rets true).fit
        compute_annualized_volatility2 exm2 rets2 = _
      unfold MultivariateNormalGenerator.fit
      rw [mvn_lazy_load_of_isSome
        compute_annualized_volatility2 exm2 rets2 _ true hs]
    · show (mg.lazy_load compute_annualized_volatility exm rets true).predict
        compute_annualized_volatility2 exm2 rets2 = _
      unfold MultivariateNormalGenerator.predict
      rw [mvn_lazy_load_of_isSome
        compute_annualized_volatility2 exm2 rets2 _ false hs]
      rfl
    · show (mg.lazy_load compute_annualized_volatility exm rets false).fit
        compute_annualized_volatility2 exm2 rets2 = _
      unfold MultivariateNormalGenerator.fit
      rw [mvn_lazy_load_of_isSome
        compute_annualized_volatility2 exm2 rets2 _ true hs']
      rfl

end Sources

namespace Sources

/-- Witness for C2 on concrete fixtures: a csv-backed disk node and the
two generators, each called twice. -/
theorem sources_dataset_produced_at_most_once_witness :
    (disk_fx.fit read_csv_fx read_parquet_fx to_datetime_fx =
       .ok (disk_fx_loaded, disk_fx_loaded.df)) ∧
    ((disk_fx_loaded.df = disk_fx_loaded.df ∧ disk_fx_loaded.df.isSome ∧
      disk_fx_loaded.fit read_csv_fx read_parquet_fx to_datetime_fx =
        .ok (disk_fx_loaded, disk_fx_loaded.df) ∧
      disk_fx_loaded.predict = (disk_fx_loaded, disk_fx_loaded.df)) ∧
     ((arma_fx.fit gs_fx ex_fx).2 = (arma_fx.fit gs_fx ex_fx).1.df ∧
      (arma_fx.fit gs_fx ex_fx).2.isSome ∧
      (arma_fx.fit gs_fx ex_fx).1.fit gs_fx ex_fx =
        ((arma_fx.fit gs_fx ex_fx).1, (arma_fx.fit gs_fx ex_fx).2) ∧
      (arma_fx.fit gs_fx ex_fx).1.predict gs_fx ex_fx =
        ((arma_fx.fit gs_fx ex_fx).1, (arma_fx.fit gs_fx ex_fx).2) ∧
      (arma_fx.predict gs_fx ex_fx).1.fit gs_fx ex_fx =
        ((arma_fx.predict gs_fx ex_fx).1, (arma_fx.predict gs_fx ex_fx).2)) ∧
     ((mvn_fx.fit cav_fx ex_fx mvnrets_fx).2 =
        (mvn_fx.fit cav_fx ex_fx mvnrets_fx).1.df ∧
      (mvn_fx.fit cav_fx ex_fx mvnrets_fx).2.isSome ∧
      (mvn_fx.fit cav_fx ex_fx mvnrets_fx).1.fit cav_fx ex_fx mvnrets_fx =
        ((mvn_fx.fit cav_fx ex_fx mvnrets_fx).1,
         (mvn_fx.fit cav_fx ex_fx mvnrets_fx).2) ∧
      (mvn_fx.fit cav_fx ex_fx mvnrets_fx).1.predict cav_fx ex_fx mvnrets_fx =
        ((mvn_fx.fit cav_fx ex_fx mvnrets_fx).1,
         (mvn_fx.fit cav_fx ex_fx mvnrets_fx).2) ∧
      (mvn_fx.predict cav_fx ex_fx mvnrets_fx).1.fit cav_fx ex_fx mvnrets_fx =
        ((mvn_fx.predict cav_fx ex_fx mvnrets_fx).1,
         (mvn_fx.predict cav_fx ex_fx mvnrets_fx).2))) :=
  ⟨by rfl,
   sources_dataset_produced_at_most_once read_csv_fx read_parquet_fx
     read_csv_fx read_parquet_fx to_datetime_fx to_datetime_fx disk_fx
     disk_fx_loaded disk_fx_loaded.df (by rfl) gs_fx gs_fx ex_fx ex_fx arma_fx
     cav_fx cav_fx ex_fx ex_fx mvnrets_fx mvnrets_fx mvn_fx⟩

end Sources

namespace Sources

/-- C4: on the disk node's first `fit` (dataset unset, file read
succeeding), with a timestamp column given: that column becomes the
index (its parsed values, with the column removed from the table); if
the parsed index is not strictly increasing the fit fails fatally; if it
is, but the inclusive `[start_date, end_date]` slice has no rows left,
the fit fails fatally with "Dataframe is empty"; only when both checks
pass does `fit` return the sliced dataset. -/
theorem disk_fit_checks
    (read_csv read_parquet : String → List (String × ℤ) → DiskDF)
    (to_datetime : ℤ → ℤ) (s s1 : DiskDataSource) (df0 : DiskDF)
    (tcol : String) (tsvals : List ℤ)
    (hfresh : s.df = none)
    (hread : s.read_data read_csv read_parquet = .ok s1)
    (hdf : s1.df = some df0)
    (htc : s1.timestamp_col = some tcol)
    (hcol : df0.cols.lookup tcol = some tsvals) :
    (strictly_increasing (tsvals.map to_datetime) = false →
      s.fit read_csv read_parquet to_datetime =
        .error "dassert_strictly_increasing_index failed") ∧
    (strictly_increasing (tsvals.map to_datetime) = true →
      (tsvals.map to_datetime).filter (inWindow s1.start_date s1.end_date)
        = [] →
      s.fit read_csv read_parquet to_datetime = .error "Dataframe is empty") ∧
    (strictly_increasing (tsvals.map to_datetime) = true →
      (tsvals.map to_datetime).filter (inWindow s1.start_date s1.end_date)
        ≠ [] →
      s.fit read_csv read_parquet to_datetime =
        .ok ({ s1 with df := some (DiskDF.slice
                 ⟨tsvals.map to_datetime,
                  df0.cols.filter (fun p => p.1 ≠ tcol)⟩
                 s1.start_date s1.end_date) },
             some (DiskDF.slice ⟨tsvals.map to_datetime,
                     df0.cols.filter (fun p => p.1 ≠ tcol)⟩
                     s1.start_date s1.end_date))) := by
  have hll : s.lazy_load read_csv read_parquet to_datetime =
      s1.process_data to_datetime := by
    unfold DiskDataSource.lazy_load
    rw [hfresh]
    rw [hread]
    rfl
  have hsi : df0.set_index tcol =
      .ok ⟨tsvals, df0.cols.filter (fun p => p.1 ≠ tcol)⟩ := by
    unfold DiskDF.set_index
    rw [hcol]
  have hpd : s1.process_data to_datetime =
      (if strictly_increasing (tsvals.map to_datetime) then
         if ((tsvals.map to_datetime).filter
               (inWindow s1.start_date s1.end_date)) = [] then
           Except.error "Dataframe is empty"
         else Except.ok { s1 with df := some (DiskDF.slice
                ⟨tsvals.map to_datetime,
                 df0.cols.filter (fun p => p.1 ≠ tcol)⟩
                s1.start_date s1.end_date) }
       else Except.error "dassert_strictly_increasing_index failed") := by
    unfold DiskDataSource.process_data
    rw [hdf, htc]
    dsimp only
    rw [hsi]
    dsimp only [DiskDF.slice]
  have hfit : s.fit read_csv read_parquet to_datetime =
      match s1.process_data to_datetime with
      | .error e => .error e
      | .ok s2 => .ok (s2, s2.df) := by
    unfold DiskDataSource.fit
    rw [hll]
  refine ⟨?_, ?_, ?_⟩
  · intro hinc
    rw [hfit, hpd, if_neg (by rw [hinc]; exact Bool.false_ne_true)]
  · intro hinc hempt
    rw [hfit, hpd, if_pos hinc, if_pos hempt]
  · intro hinc hempt
    rw [hfit, hpd, if_pos hinc, if_neg hempt]

end Sources

namespace Sources

/-- Witness for C4: a concrete `.csv` node with timestamp column `ts`,
raw index strictly increasing after parsing, window [1, 2]. -/
theorem disk_fit_checks_witness :
    (disk4_fx.df = none ∧
     disk4_fx.read_data read_csv4_fx read_parquet_fx = .ok disk4_fx_read ∧
     disk4_fx_read.df = some df04_fx ∧
     disk4_fx_read.timestamp_col = some "ts" ∧
     df04_fx.cols.lookup "ts" = some [1, 2, 3]) ∧
    ((strictly_increasing ([1, 2, 3].map to_datetime_fx) = false →
       disk4_fx.fit read_csv4_fx read_parquet_fx to_datetime_fx =
         .error "dassert_strictly_increasing_index failed") ∧
     (strictly_increasing ([1, 2, 3].map to_datetime_fx) = true →
       ([1, 2, 3].map to_datetime_fx).filter
           (inWindow disk4_fx_read.start_date disk4_fx_read.end_date) = [] →
       disk4_fx.fit read_csv4_fx read_parquet_fx to_datetime_fx =
         .error "Dataframe is empty") ∧
     (strictly_increasing ([1, 2, 3].map to_datetime_fx) = true →
       ([1, 2, 3].map to_datetime_fx).filter
           (inWindow disk4_fx_read.start_date disk4_fx_read.end_date) ≠ [] →
       disk4_fx.fit read_csv4_fx read_parquet_fx to_datetime_fx =
         .ok ({ disk4_fx_read with df := some (DiskDF.slice
                  ⟨[1, 2, 3].map to_datetime_fx,
                   df04_fx.cols.filter (fun p => p.1 ≠ "ts")⟩
                  disk4_fx_read.start_date disk4_fx_read.end_date) },
              some (DiskDF.slice ⟨[1, 2, 3].map to_datetime_fx,
                      df04_fx.cols.filter (fun p => p.1 ≠ "ts")⟩
                      disk4_fx_read.start_date disk4_fx_read.end_date)))) :=
  ⟨⟨rfl, by rfl, rfl, rfl, by rfl⟩,
   disk_fit_checks read_csv4_fx read_parquet_fx to_datetime_fx disk4_fx
     disk4_fx_read df04_fx "ts" [1, 2, 3] rfl (by rfl) rfl rfl (by rfl)⟩

end Sources

namespace Sources

lemma DiskDataSource.process_data_ok_fields (to_datetime : ℤ → ℤ)
    (s s' : DiskDataSource)
    (h : s.process_data to_datetime = .ok s') :
    s'.reader_kwargs = s.reader_kwargs ∧
    s'.kwargs_aliased = s.kwargs_aliased := by
  unfold DiskDataSource.process_data at h
  split at h
  · exact Except.noConfusion h
  · split at h
    · exact Except.noConfusion h
    · dsimp only at h
      split at h
      · split at h
        · exact Except.noConfusion h
        · cases h; exact ⟨rfl, rfl⟩
      · exact Except.noConfusion h

/-- C9 counterexample: a caller-supplied *empty* reader-options mapping
(which does not specify an index column) is falsy, so the constructor
replaces it by a fresh dict instead of aliasing it; the first `fit`
completes, yet the caller's mapping is left untouched — no
`index_col = 0` appears in it. -/
theorem disk_reader_kwargs_alias_counterexample :
    (DiskDataSource.init "disk9" "data.csv" none none none (some [])).fit
        read_csv_fx read_parquet_fx to_datetime_fx =
      .ok ({ DiskDataSource.init "disk9" "data.csv" none none none
               (some []) with
               reader_kwargs := [("index_col", 0)],
               df := some ⟨[1, 2], [("a", [5, 6])]⟩ },
           some ⟨[1, 2], [("a", [5, 6])]⟩) ∧
    DiskDataSource.callerKwargs
      { DiskDataSource.init "disk9" "data.csv" none none none (some []) with
          reader_kwargs := [("index_col", 0)],
          df := some ⟨[1, 2], [("a", [5, 6])]⟩ } [] = [] ∧
    List.lookup "index_col"
      (DiskDataSource.callerKwargs
        { DiskDataSource.init "disk9" "data.csv" none none none
            (some []) with
            reader_kwargs := [("index_col", 0)],
            df := some ⟨[1, 2], [("a", [5, 6])]⟩ } []) = none :=
  ⟨by rfl, by rfl, by rfl⟩

/-- C9 (amended): for a caller-supplied *non-empty* reader-options
mapping without an `index_col` entry and a `.csv` path, the constructor
aliases the caller's dict, and a successful first `fit` mutates that
very dict by appending `index_col = 0`, leaving every existing entry in
place. -/
theorem disk_reader_kwargs_alias (nid file_path : String)
    (timestamp_col : Option String) (start_date end_date : Option ℤ)
    (k : List (String × ℤ))
    (read_csv read_parquet : String → List (String × ℤ) → DiskDF)
    (to_datetime : ℤ → ℤ) (s' : DiskDataSource) (d : Option DiskDF)
    (hk : ¬ k = [])
    (hnoidx : List.lookup "index_col" k = none)
    (hcsv : splitext_last file_path = ".csv")
    (hfit : (DiskDataSource.init nid file_path timestamp_col start_date
               end_date (some k)).fit read_csv read_parquet to_datetime =
            .ok (s', d)) :
    s'.kwargs_aliased = true ∧
    s'.callerKwargs k = k ++ [("index_col", 0)] := by
  have hinit : DiskDataSource.init nid file_path timestamp_col start_date
      end_date (some k) =
      ⟨nid, file_path, timestamp_col, start_date, end_date, k, true, none⟩ := by
    unfold DiskDataSource.init
    dsimp only
    rw [if_neg hk]
  rw [hinit] at hfit
  obtain ⟨hll, hd⟩ := DiskDataSource.fit_ok_parts read_csv read_parquet
    to_datetime _ s' d hfit
  have hread : DiskDataSource.read_data read_csv read_parquet
      ⟨nid, file_path, timestamp_col, start_date, end_date, k, true, none⟩ =
      .ok ⟨nid, file_path, timestamp_col, start_date, end_date,
           k ++ [("index_col", 0)], true,
           some (read_csv file_path (k ++ [("index_col", 0)]))⟩ := by
    unfold DiskDataSource.read_data
    dsimp only
    rw [hcsv]
    rw [if_pos rfl]
    rw [hnoidx]
    rfl
  have hpd : DiskDataSource.process_data to_datetime
      ⟨nid, file_path, timestamp_col, start_date, end_date,
       k ++ [("index_col", 0)], true,
       some (read_csv file_path (k ++ [("index_col", 0)]))⟩ = .ok s' := by
    unfold DiskDataSource.lazy_load at hll
    dsimp only at hll
    rw [hread] at hll
    exact hll
  obtain ⟨hkw, hal⟩ := DiskDataSource.process_data_ok_fields to_datetime _ s' hpd
  refine ⟨hal, ?_⟩
  unfold DiskDataSource.callerKwargs
  rw [hal, if_pos rfl, hkw]

/-- Witness for the amended C9: caller dict `[("sep", 1)]`. -/
theorem disk_reader_kwargs_alias_witness :
    (¬ ([("sep", 1)] : List (String × ℤ)) = [] ∧
     List.lookup "index_col" ([("sep", 1)] : List (String × ℤ)) = none ∧
     splitext_last "data.csv" = ".csv" ∧
     (DiskDataSource.init "disk9w" "data.csv" none none none
        (some [("sep", 1)])).fit read_csv_fx read_parquet_fx to_datetime_fx =
       .ok (⟨"disk9w", "data.csv", none, none, none,
             [("sep", 1), ("index_col", 0)], true,
             some ⟨[1, 2], [("a", [5, 6])]⟩⟩,
            some ⟨[1, 2], [("a", [5, 6])]⟩)) ∧
    ((⟨"disk9w", "data.csv", none, none, none,
       [("sep", 1), ("index_col", 0)], true,
       some ⟨[1, 2], [("a", [5, 6])]⟩⟩ : DiskDataSource).kwargs_aliased
       = true ∧
     DiskDataSource.callerKwargs
       ⟨"disk9w", "data.csv", none, none, none,
        [("sep", 1), ("index_col", 0)], true,
        some ⟨[1, 2], [("a", [5, 6])]⟩⟩ [("sep", 1)] =
       [("sep", 1)] ++ [("index_col", 0)]) :=
  ⟨⟨by decide, by rfl, by rfl, by rfl⟩,
   disk_reader_kwargs_alias "disk9w" "data.csv" none none none [("sep", 1)]
     read_csv_fx read_parquet_fx to_datetime_fx _ _ (by decide) (by rfl)
     (by rfl) (by rfl)⟩

end Sources

namespace HCache

/-- C3: starting from a fully cleared cache with both tiers enabled over
a pure wrapped function: the first call reports `no_cache`; an immediate
repeat with the same arguments reports `mem`; after clearing only the
memory tier, the disk store still holds the value, so a repeat call is
served from disk (reported `disk`, no recomputation) and repopulates the
memory tier, making the following call report `mem` again; every call
returns the wrapped function's value. -/
theorem fully_cached_computation_tiers {α β : Type} [DecidableEq α]
    (computation_function : α → β) (inputs : α)
    (m0 d0 : List (α × β)) (t0 : Tier) :
    (let c0 := (Cached.mk computation_function true true m0 d0
                  t0).clear_cache none
     let r1 := c0.call inputs
     let r2 := r1.1.call inputs
     let c2 := r2.1.clear_cache (some "mem")
     let r3 := c2.call inputs
     let r4 := r3.1.call inputs
     r1.1.get_last_cache_accessed = Tier.no_cache ∧
     r1.2 = computation_function inputs ∧
     r2.1.get_last_cache_accessed = Tier.mem ∧
     r2.2 = computation_function inputs ∧
     lookupArgs c2.disk_store inputs = some (computation_function inputs) ∧
     r3.1.get_last_cache_accessed = Tier.disk ∧
     r3.2 = computation_function inputs ∧
     lookupArgs r3.1.mem_store inputs = some (computation_function inputs) ∧
     r4.1.get_last_cache_accessed = Tier.mem ∧
     r4.2 = computation_function inputs) := by
  simp only [Cached.clear_cache, Cached.call, Cached.get_last_cache_accessed,
    lookupArgs, if_true, if_pos rfl]
  exact ⟨trivial, trivial, trivial, trivial, trivial, trivial, trivial,
    trivial, trivial, trivial⟩

end HCache
